import Mathlib

/-!
Shallow embedding of `src/app/api/openai_client.py` (ChatGPT-Windows).

The embedding models the pure decision logic of the client:
string classification (`_localize_error`, `_is_temperature_error`),
request building (`_build_api_params`), delta extraction
(`_extract_delta_text`), response extraction (`_extract_output_text`),
the temperature-negotiation retry, the streaming decode loop of
`_stream_response` (with cooperative cancellation and the per-chunk
callback trace), and the top-level `send_message` dispatch.

Python values that may or may not be strings are modelled by `PyVal`;
dictionaries by association lists; the transport (`client.responses.create`)
by an arbitrary function from parameter sets to `Except String` results,
where `Except.error e` models a raised exception whose `str` is `e`.
The cooperative cancellation flag (a `threading.Event` polled once per
received event) is modelled by `Option Nat`: `some k` means the flag is
first observed set at the check preceding the event with 0-based index
`k` (and stays set), `none` means it is never observed set.
-/

/-- Case-sensitive test that the pattern list is an initial segment of the
text list (the building block of substring search). -/
def leadsWith : List Char → List Char → Bool
  | [], _ => true
  | _ :: _, [] => false
  | a :: as, b :: bs => a == b && leadsWith as bs

/-- Substring search over character lists: does `pat` occur contiguously in
the text? -/
def hasSub (pat : List Char) : List Char → Bool
  | [] => pat.isEmpty
  | c :: rest => leadsWith pat (c :: rest) || hasSub pat rest

/-- Python `pat in s` on strings: contiguous substring containment. -/
def containsPat (s pat : String) : Bool :=
  hasSub pat.toList s.toList

/-- Python `str.lower()` as used by the classifier: character-wise
lowercasing of the message. -/
def lowerStr (s : String) : String := String.mk (s.data.map Char.toLower)

/-- `_localize_error`: maps a raw error message to a localized category by
case-insensitive substring matching against an ordered rule table, first
match wins; an unmatched message passes through unchanged. -/
def localize_error (error_message : String) : String :=
  let e := lowerStr error_message
  if containsPat e "invalid_api_key" || containsPat e "invalid api key" then
    "APIキーが無効です"
  else if containsPat e "rate_limit" || containsPat e "rate limit" then
    "レート制限に達しました。しばらく待ってから再試行してください"
  else if containsPat e "insufficient_quota" || containsPat e "insufficient quota" then
    "API利用枠が不足しています"
  else if containsPat e "connection" then
    "接続エラー: インターネット接続を確認してください"
  else if containsPat e "model_not_found" || containsPat e "model not found" then
    "指定されたモデルが見つかりません"
  else if containsPat e "context_length" || containsPat e "maximum context" then
    "入力が長すぎます。テキストを短くするか、最大トークン数を下げてください"
  else if containsPat e "max_tokens" || containsPat e "max_output_tokens" then
    "出力トークン数の設定を確認してください"
  else
    error_message

/-- `_is_temperature_error`: the message case-insensitively contains
"temperature" together with one of the rejection keywords. -/
def is_temperature_error (error_message : String) : Bool :=
  let e := lowerStr error_message
  if !containsPat e "temperature" then false
  else
    ["unsupported", "not supported", "unknown", "invalid", "unrecognized"].any
      (fun kw => containsPat e kw)

/-- A Python value that is either a string or some non-string object
(whose only relevant property is that it is not a `str`). -/
inductive PyVal where
  | str (s : String)
  | other
deriving DecidableEq, Repr

/-- First-match lookup in an association list modelling a Python dict
(`k in d` holds exactly when `lookupKey d k` is `some`). -/
def lookupKey (d : List (String × PyVal)) (k : String) : Option PyVal :=
  match d with
  | [] => none
  | (k2, v) :: rest => if k2 == k then some v else lookupKey rest k

/-- The `delta` attribute of a streaming event as seen by
`_extract_delta_text`: absent/None, a raw string, a dict, or some other
object. -/
inductive DeltaVal where
  | none
  | str (s : String)
  | dict (entries : List (String × PyVal))
  | other
deriving DecidableEq, Repr

/-- `_extract_delta_text`: extract the text increment from a streaming
event payload. A string delta is returned as is; a dict delta is probed
for a "text" key first, then a "content" key, a present key whose value
is not a string yielding the empty string; anything else yields the
empty string. -/
def extract_delta_text (delta : DeltaVal) : String :=
  match delta with
  | .none => ""
  | .str s => s
  | .dict d =>
      match lookupKey d "text" with
      | some (.str s) => s
      | some .other => ""
      | Option.none =>
          match lookupKey d "content" with
          | some (.str s) => s
          | some .other => ""
          | Option.none => ""
  | .other => ""

/-- A value stored in the outbound parameter dict built by
`_build_api_params`. The temperature float is carried opaquely as a
rational (no arithmetic is ever performed on it). -/
inductive ParamValue where
  | str (s : String)
  | int (n : Int)
  | rat (q : ℚ)
  | bool (b : Bool)
  | msgs (l : List (String × String))
deriving DecidableEq

/-- The outbound parameter set: an ordered dict, modelled as an
association list in insertion order. -/
def ParamSet := List (String × ParamValue)
deriving DecidableEq

/-- The keys of a parameter set in insertion order. -/
def ParamSet.keys (p : ParamSet) : List String :=
  List.map Prod.fst p

/-- First-match lookup in a parameter set (Python dict access). -/
def ParamSet.find (p : ParamSet) (k : String) : Option ParamValue :=
  match p with
  | [] => none
  | (k2, v) :: rest => if k2 == k then some v else ParamSet.find rest k

/-- `_build_api_params`: assemble the outbound parameter dict. The keys
`model`, `input`, `max_output_tokens` and `store` are always present, in
that order; `stream` is appended in streaming mode, `temperature` when a
temperature is supplied, and `instructions` when the system prompt is
non-empty and not all whitespace. -/
def build_api_params (model user_message system_prompt : String)
    (max_tokens : Int) (temperature : Option ℚ) (stream : Bool) : ParamSet :=
  [("model", ParamValue.str model),
   ("input", ParamValue.msgs [("user", user_message)]),
   ("max_output_tokens", ParamValue.int max_tokens),
   ("store", ParamValue.bool false)]
  ++ (if stream then [("stream", ParamValue.bool true)] else [])
  ++ (match temperature with
      | some t => [("temperature", ParamValue.rat t)]
      | none => [])
  ++ (if system_prompt != "" && system_prompt.trim != "" then
        [("instructions", ParamValue.str system_prompt)]
      else [])

/-- The temperature-negotiation shared by `_non_stream_response` and
`_stream_response`: first attempt with temperature; on a failure whose
message is a temperature-rejection, exactly one retry with the
temperature parameter omitted; any other failure, or a failure of the
retry, is terminal. Returns the final transport outcome together with
the list of parameter sets actually sent, in order. -/
def negotiate {α : Type} (call : ParamSet → Except String α)
    (model user_message system_prompt : String) (temperature : ℚ)
    (max_tokens : Int) (stream : Bool) :
    Except String α × List ParamSet :=
  let p1 := build_api_params model user_message system_prompt max_tokens
    (some temperature) stream
  match call p1 with
  | Except.ok r => (Except.ok r, [p1])
  | Except.error e =>
      if is_temperature_error e then
        let p2 := build_api_params model user_message system_prompt max_tokens
          none stream
        (call p2, [p1, p2])
      else
        (Except.error e, [p1])

/-- A streaming event as seen by the decode loop of `_stream_response`:
a `response.output_text.delta` event carrying a delta payload, an
`error` event carrying optional `code` and `message` attributes plus its
`str` representation, or an event of any other type (ignored). -/
inductive StreamEvent where
  | deltaEvent (delta : DeltaVal)
  | errorEvent (code : Option String) (message : Option String) (repr : String)
  | otherEvent
deriving DecidableEq

/-- Whether an event is an `error` event. -/
def isErrorEvent : StreamEvent → Bool
  | .errorEvent _ _ _ => true
  | _ => false

/-- The message of the `RuntimeError` raised on an `error` event: the
event's message prefixed by its code when the code is truthy, the bare
message when the code is absent or falsy, and the event's `str`
representation when the message itself is absent or falsy. -/
def raiseMsg : Option String → Option String → String → String
  | code, some m, repr =>
      if m.isEmpty then repr
      else
        match code with
        | some c => if c.isEmpty then m else c ++ ": " ++ m
        | none => m
  | _, none, repr => repr

/-- Whether the cooperative cancellation flag is observed set at the
current check: `some 0` means yes; `some (k+1)` means it will first be
observed `k+1` checks later; `none` means never. -/
def cancelNow : Option Nat → Bool
  | some 0 => true
  | _ => false

/-- Advance the cancellation clock by one processed event (saturating,
so once set the flag stays set, as with `threading.Event`). -/
def tick : Option Nat → Option Nat
  | some k => some (k - 1)
  | none => none

/-- The decode loop of `_stream_response`. State: the accumulated
content so far and the trace of arguments passed to the chunk callback,
in order. For each event the cancellation flag is checked first; if set
the loop returns `(content so far, cancelled := true)`. A delta event
whose extracted text is non-empty appends it to the accumulator and to
the callback trace; an error event raises (modelled as `Except.error`
carrying the raised message); other events are ignored. Natural end
returns `(accumulator, cancelled := false)`. -/
def streamLoop (cancel : Option Nat) (acc : String) (calls : List String) :
    List StreamEvent → Except String (String × Bool) × List String
  | [] => (Except.ok (acc, false), calls)
  | e :: rest =>
      if cancelNow cancel then (Except.ok (acc, true), calls)
      else
        match e with
        | .deltaEvent d =>
            let t := extract_delta_text d
            if t.isEmpty then streamLoop (tick cancel) acc calls rest
            else streamLoop (tick cancel) (acc ++ t) (calls ++ [t]) rest
        | .errorEvent code msg repr =>
            (Except.error (raiseMsg code msg repr), calls)
        | .otherEvent => streamLoop (tick cancel) acc calls rest

/-- `ChatResponse`: the result dataclass returned by every operation. -/
structure ChatResponse where
  success : Bool
  content : String := ""
  error : String := ""
  cancelled : Bool := false
deriving DecidableEq, Repr

/-- An element of a nested content list, as probed by
`_extract_output_text`: either a non-dict object whose `text` attribute
may be absent, a string, or some other value; or a dict (on which
attribute access yields nothing and key access is used instead). -/
inductive ContentItem where
  | obj (text : Option PyVal)
  | pdict (entries : List (String × PyVal))
deriving DecidableEq

/-- The `content` attribute of an output item: absent/None, a string, a
list of content items, or some other truthy object. -/
inductive ContentVal where
  | none
  | str (s : String)
  | list (items : List ContentItem)
  | other
deriving DecidableEq

/-- An element of the `output` list of a reply: its `text` attribute and
its `content` attribute. -/
structure OutputItem where
  text : Option PyVal
  content : ContentVal
deriving DecidableEq

/-- The `output` attribute of a reply: absent/None, a list, or some
other non-list value. -/
inductive OutputVal where
  | none
  | list (items : List OutputItem)
  | other
deriving DecidableEq

/-- A non-streaming reply as probed by `_extract_output_text`: its
`output_text` attribute and its `output` attribute. -/
structure Reply where
  output_text : Option PyVal
  output : OutputVal
deriving DecidableEq

/-- Python truthiness of a `content` attribute value (`if content:`):
None, the empty string and the empty list are falsy. -/
def contentTruthy : ContentVal → Bool
  | .none => false
  | .str s => !s.isEmpty
  | .list l => !l.isEmpty
  | .other => true

/-- The inner scan of a nested content list: each element is probed for
a truthy string `text` attribute, then (for dicts) a `text` key whose
value is a string; the first hit is returned. -/
def scanContentList : List ContentItem → Option String
  | [] => none
  | ContentItem.obj t :: rest =>
      match t with
      | some (PyVal.str s) => if s.isEmpty then scanContentList rest else some s
      | _ => scanContentList rest
  | ContentItem.pdict d :: rest =>
      match lookupKey d "text" with
      | some (PyVal.str s) => some s
      | _ => scanContentList rest

/-- The outer scan of the `output` list: each item is probed for a
truthy string `text` attribute, then for a truthy `content` attribute
that is a string (returned directly) or a list (scanned by
`scanContentList`, falling through to the next item on no hit). -/
def scanOutput : List OutputItem → String
  | [] => ""
  | item :: rest =>
      match item.text with
      | some (PyVal.str s) =>
          if s.isEmpty then scanOutputContent item rest else s
      | _ => scanOutputContent item rest
where
  /-- The `content` probe of one output item, continuing with the rest
  of the list when it yields nothing. -/
  scanOutputContent (item : OutputItem) (rest : List OutputItem) : String :=
    if contentTruthy item.content then
      match item.content with
      | ContentVal.str s => s
      | ContentVal.list l =>
          match scanContentList l with
          | some t => t
          | none => scanOutput rest
      | _ => scanOutput rest
    else scanOutput rest

/-- `_extract_output_text`: the ordered fallback chain, first match
wins: (1) a truthy string `output_text` attribute; (2) otherwise, if the
`output` attribute is a list, the scan of its items; anything else
yields the empty string, never an error. -/
def extract_output_text (r : Reply) : String :=
  match r.output_text with
  | some (PyVal.str s) =>
      if s.isEmpty then extractFromOutput r.output else s
  | _ => extractFromOutput r.output
where
  /-- The fallback on the `output` attribute. -/
  extractFromOutput : OutputVal → String
    | OutputVal.list items => scanOutput items
    | _ => ""

/-- `_non_stream_response`: negotiate the call, then extract the text of
the reply; a terminal transport failure is localized and returned as a
failed result with empty content. -/
def non_stream_response (call : ParamSet → Except String Reply)
    (model user_message system_prompt : String) (temperature : ℚ)
    (max_tokens : Int) : ChatResponse :=
  match (negotiate call model user_message system_prompt temperature
      max_tokens false).1 with
  | Except.ok r => { success := true, content := extract_output_text r }
  | Except.error e => { success := false, error := localize_error e }

/-- `_stream_response`: negotiate the call, then run the decode loop; a
terminal transport failure, or an error event raised mid-stream, is
localized and returned as a failed result with empty content. Returns
the result together with the trace of chunk-callback invocations. -/
def stream_response (call : ParamSet → Except String (List StreamEvent))
    (model user_message system_prompt : String) (temperature : ℚ)
    (max_tokens : Int) (cancel : Option Nat) :
    ChatResponse × List String :=
  match (negotiate call model user_message system_prompt temperature
      max_tokens true).1 with
  | Except.error e => ({ success := false, error := localize_error e }, [])
  | Except.ok events =>
      match streamLoop cancel "" [] events with
      | (Except.ok (content, cancelled), calls) =>
          ({ success := true, content := content, cancelled := cancelled }, calls)
      | (Except.error e, calls) =>
          ({ success := false, error := localize_error e }, calls)

/-- `send_message`: validate the input (blank message, missing API key),
then dispatch to the streaming or non-streaming path. -/
def send_message (callStream : ParamSet → Except String (List StreamEvent))
    (callNonStream : ParamSet → Except String Reply) (api_key : String)
    (user_message system_prompt model : String) (temperature : ℚ)
    (max_tokens : Int) (stream : Bool) (cancel : Option Nat) : ChatResponse :=
  if user_message.trim.isEmpty then
    { success := false, error := "入力テキストが空です" }
  else if api_key.isEmpty then
    { success := false, error := "APIキーが設定されていません" }
  else if stream then
    (stream_response callStream model user_message system_prompt temperature
      max_tokens cancel).1
  else
    non_stream_response callNonStream model user_message system_prompt
      temperature max_tokens

/-- The delta texts extracted from the delta events of an event list, in
arrival order (including empty extractions, which contribute nothing to
the concatenation). -/
def deltasOf : List StreamEvent → List String
  | [] => []
  | StreamEvent.deltaEvent d :: rest => extract_delta_text d :: deltasOf rest
  | StreamEvent.errorEvent _ _ _ :: rest => deltasOf rest
  | StreamEvent.otherEvent :: rest => deltasOf rest

/-- Concatenation of a list of strings in order. -/
def concatAll : List String → String
  | [] => ""
  | s :: rest => s ++ concatAll rest

/-- The non-empty strings of a list, in order. -/
def nonEmptyOf : List String → List String
  | [] => []
  | s :: rest => if s.isEmpty then nonEmptyOf rest else s :: nonEmptyOf rest

/-- No `error` event occurs in the list. -/
def noErrorEvents (events : List StreamEvent) : Bool :=
  events.all (fun e => !isErrorEvent e)

/-- Closed form of the decode loop when the cancellation flag is never
set and no error event occurs: the accumulator grows by the
concatenation of the extracted deltas, and the callback trace by the
non-empty deltas, in arrival order. -/
theorem streamLoop_none_eq (events : List StreamEvent) :
    ∀ (acc : String) (calls : List String), noErrorEvents events = true →
    streamLoop none acc calls events =
      (Except.ok (acc ++ concatAll (deltasOf events), false),
       calls ++ nonEmptyOf (deltasOf events)) := by
  induction events with
  | nil =>
      intro acc calls _
      simp [streamLoop, deltasOf, concatAll, nonEmptyOf, String.append_empty]
  | cons e rest ih =>
      intro acc calls h
      simp only [noErrorEvents, List.all_cons, Bool.and_eq_true] at h
      obtain ⟨h1, h2⟩ := h
      have hrest : noErrorEvents rest = true := h2
      cases e with
      | deltaEvent d =>
          simp only [streamLoop, cancelNow, tick]
          by_cases ht : (extract_delta_text d).isEmpty
          · have ht0 : extract_delta_text d = "" :=
              (String.isEmpty_iff (extract_delta_text d)).mp ht
            rw [if_pos ht, ih acc calls hrest]
            simp [deltasOf, concatAll, nonEmptyOf, ht0, String.empty_append,
              show "".isEmpty = true from rfl]
          · rw [if_neg ht, ih (acc ++ extract_delta_text d)
              (calls ++ [extract_delta_text d]) hrest]
            simp only [deltasOf, concatAll, nonEmptyOf]
            rw [if_neg ht, String.append_assoc, List.append_assoc]
            simp
      | errorEvent code msg repr =>
          simp [isErrorEvent] at h1
      | otherEvent =>
          simp only [streamLoop, cancelNow, tick]
          rw [ih acc calls hrest]
          simp [deltasOf]

/-- Closed form of the decode loop when the cancellation flag is first
observed set at the check preceding the event with index `k` (0-based),
that event exists, and no error event precedes it: the loop returns the
deltas of the first `k` events with the cancelled marker. -/
theorem streamLoop_cancel_eq :
    ∀ (k : Nat) (events : List StreamEvent) (acc : String)
      (calls : List String), k < events.length →
    noErrorEvents (events.take k) = true →
    streamLoop (some k) acc calls events =
      (Except.ok (acc ++ concatAll (deltasOf (events.take k)), true),
       calls ++ nonEmptyOf (deltasOf (events.take k))) := by
  intro k
  induction k with
  | zero =>
      intro events acc calls hlen _
      cases events with
      | nil => simp at hlen
      | cons e rest =>
          simp [streamLoop, cancelNow, deltasOf, concatAll, nonEmptyOf,
            String.append_empty]
  | succ k ih =>
      intro events acc calls hlen hne
      cases events with
      | nil => simp at hlen
      | cons e rest =>
          have hlen2 : k < rest.length := by
            simpa using Nat.lt_of_succ_lt_succ hlen
          simp only [List.take_succ_cons, noErrorEvents, List.all_cons,
            Bool.and_eq_true] at hne
          obtain ⟨h1, h2⟩ := hne
          have hrest : noErrorEvents (rest.take k) = true := h2
          have htick : tick (some (k + 1)) = some k := by
            simp [tick]
          cases e with
          | deltaEvent d =>
              simp only [streamLoop, cancelNow, htick]
              by_cases ht : (extract_delta_text d).isEmpty
              · have ht0 : extract_delta_text d = "" :=
                  (String.isEmpty_iff (extract_delta_text d)).mp ht
                rw [if_pos ht, ih rest acc calls hlen2 hrest]
                simp [deltasOf, concatAll, nonEmptyOf, ht0, String.empty_append,
                  show "".isEmpty = true from rfl]
              · rw [if_neg ht, ih rest (acc ++ extract_delta_text d)
                  (calls ++ [extract_delta_text d]) hlen2 hrest]
                simp only [List.take_succ_cons, deltasOf, concatAll, nonEmptyOf]
                rw [if_neg ht, String.append_assoc, List.append_assoc]
                simp
          | errorEvent code msg repr =>
              simp [isErrorEvent] at h1
          | otherEvent =>
              simp only [streamLoop, cancelNow, htick]
              rw [ih rest acc calls hlen2 hrest]
              simp [deltasOf]

/-- Closed form of the decode loop when an error event with no error
events before it is reached without cancellation: the loop raises the
formatted error message, the callback trace holding the chunks already
delivered. -/
theorem streamLoop_error_eq (pre : List StreamEvent) :
    ∀ (code msg : Option String) (repr : String)
      (post : List StreamEvent) (acc : String) (calls : List String),
    noErrorEvents pre = true →
    streamLoop none acc calls
        (pre ++ StreamEvent.errorEvent code msg repr :: post) =
      (Except.error (raiseMsg code msg repr),
       calls ++ nonEmptyOf (deltasOf pre)) := by
  induction pre with
  | nil =>
      intro code msg repr post acc calls _
      simp [streamLoop, cancelNow, deltasOf, nonEmptyOf]
  | cons e rest ih =>
      intro code msg repr post acc calls h
      simp only [noErrorEvents, List.all_cons, Bool.and_eq_true] at h
      obtain ⟨h1, h2⟩ := h
      have hrest : noErrorEvents rest = true := h2
      cases e with
      | deltaEvent d =>
          simp only [List.cons_append, List.append_eq, streamLoop, cancelNow,
            tick]
          by_cases ht : (extract_delta_text d).isEmpty
          · have ht0 : extract_delta_text d = "" :=
              (String.isEmpty_iff (extract_delta_text d)).mp ht
            rw [if_pos ht, ih code msg repr post acc calls hrest]
            simp [deltasOf, nonEmptyOf, ht0, show "".isEmpty = true from rfl]
          · rw [if_neg ht, ih code msg repr post (acc ++ extract_delta_text d)
              (calls ++ [extract_delta_text d]) hrest]
            simp only [deltasOf, nonEmptyOf]
            rw [if_neg ht, List.append_assoc]
            simp
      | errorEvent code2 msg2 repr2 =>
          simp [isErrorEvent] at h1
      | otherEvent =>
          simp only [List.cons_append, List.append_eq, streamLoop, cancelNow,
            tick]
          rw [ih code msg repr post acc calls hrest]
          simp [deltasOf]

/-- C1 (counterexample): for the legacy-family identifier
"gpt-3.5-turbo" — outside any newer-family prefix set — the parameter
set still names the output-token-limit field `max_output_tokens` and
contains no legacy `max_tokens` field, contradicting the claim that
identifiers outside the newer-family prefix set use the legacy field
name. -/
theorem C1_legacy_model_uses_new_field :
    ParamSet.find (build_api_params "gpt-3.5-turbo" "hello" "" 100
      (some (7 / 10)) false) "max_tokens" = none ∧
    ParamSet.find (build_api_params "gpt-3.5-turbo" "hello" "" 100
      (some (7 / 10)) false) "max_output_tokens" =
      some (ParamValue.int 100) := by
  constructor
  · rfl
  · rfl

/-- C1 (amended): the Request Builder names the output-token-limit field
`max_output_tokens` for every model identifier, with no model-family
dependence: the field is always present under that name, the legacy name
`max_tokens` never appears, and the key list does not depend on the
model identifier at all. -/
theorem C1_token_field_uniform (model user_message system_prompt : String)
    (max_tokens : Int) (temperature : Option ℚ) (stream : Bool) :
    ParamSet.find (build_api_params model user_message system_prompt
      max_tokens temperature stream) "max_output_tokens" =
      some (ParamValue.int max_tokens) ∧
    ParamSet.find (build_api_params model user_message system_prompt
      max_tokens temperature stream) "max_tokens" = none ∧
    ∀ model2 : String,
      ParamSet.keys (build_api_params model2 user_message system_prompt
        max_tokens temperature stream) =
      ParamSet.keys (build_api_params model user_message system_prompt
        max_tokens temperature stream) := by
  refine ⟨?_, ?_, ?_⟩
  · simp [build_api_params, ParamSet.find]
  · cases stream <;> cases temperature <;>
      by_cases hsp : (system_prompt != "" && system_prompt.trim != "") = true <;>
      simp [build_api_params, ParamSet.find, hsp]
  · intro model2
    cases stream <;> cases temperature <;>
      by_cases hsp : (system_prompt != "" && system_prompt.trim != "") = true <;>
      simp [build_api_params, ParamSet.keys, hsp]

/-- C5 (counterexample): the raw error string
"Error: invalid_api_key with rate_limit" contains the rate-limit marker,
yet the classifier returns the invalid-key category, because the
invalid-key rule is matched first in the ordered rule table — so the
output is not the rate-limit message regardless of surrounding text. -/
theorem C5_rate_limit_not_unconditional :
    containsPat (lowerStr "Error: invalid_api_key with rate_limit")
      "rate_limit" = true ∧
    localize_error "Error: invalid_api_key with rate_limit" ≠
      "レート制限に達しました。しばらく待ってから再試行してください" := by
  constructor
  · decide
  · decide

/-- C5 (amended): for every raw error string containing a rate-limit
marker in any letter case and containing no invalid-API-key marker (the
only rule preceding the rate-limit rule in the ordered table), the
classifier output equals the rate-limit category message. -/
theorem C5_rate_limit_classified (e : String)
    (hrl : (containsPat (lowerStr e) "rate_limit" ||
      containsPat (lowerStr e) "rate limit") = true)
    (hik : (containsPat (lowerStr e) "invalid_api_key" ||
      containsPat (lowerStr e) "invalid api key") = false) :
    localize_error e =
      "レート制限に達しました。しばらく待ってから再試行してください" := by
  simp [localize_error, hik, hrl]

/-- C5 witness: the amended theorem applied to the concrete raw string
"Rate_Limit exceeded for requests". -/
theorem C5_rate_limit_classified_witness :
    localize_error "Rate_Limit exceeded for requests" =
      "レート制限に達しました。しばらく待ってから再試行してください" :=
  C5_rate_limit_classified "Rate_Limit exceeded for requests"
    (by decide) (by decide)

/-- C9: every parameter set produced by the Request Builder, for all
inputs and in both call modes, contains the entry `store = False`. -/
theorem C9_store_always_false (model user_message system_prompt : String)
    (max_tokens : Int) (temperature : Option ℚ) (stream : Bool) :
    ParamSet.find (build_api_params model user_message system_prompt
      max_tokens temperature stream) "store" =
      some (ParamValue.bool false) := by
  simp [build_api_params, ParamSet.find]

/-- C10: for a dict-shaped delta payload whose "text" key holds a
non-string value, delta extraction returns the empty string without
consulting the "content" key: the quantification over `d` covers dicts
whose "content" key holds any value whatsoever. -/
theorem C10_text_key_decides_branch (d : List (String × PyVal))
    (h : lookupKey d "text" = some PyVal.other) :
    extract_delta_text (DeltaVal.dict d) = "" := by
  simp [extract_delta_text, h]

/-- C10 witness: a dict with a non-string "text" value and a string
"content" value still yields the empty string. -/
theorem C10_text_key_decides_branch_witness :
    lookupKey [("text", PyVal.other), ("content", PyVal.str "hello")]
      "text" = some PyVal.other ∧
    extract_delta_text (DeltaVal.dict
      [("text", PyVal.other), ("content", PyVal.str "hello")]) = "" :=
  ⟨rfl, C10_text_key_decides_branch
    [("text", PyVal.other), ("content", PyVal.str "hello")] rfl⟩

/-- The parameter set rebuilt for the negotiation retry carries no
temperature entry. -/
theorem find_temperature_of_retry (model user_message system_prompt : String)
    (max_tokens : Int) (stream : Bool) :
    ParamSet.find (build_api_params model user_message system_prompt
      max_tokens none stream) "temperature" = none := by
  cases stream <;>
    by_cases hsp : (system_prompt != "" && system_prompt.trim != "") = true <;>
    simp [build_api_params, ParamSet.find, hsp]

/-- C2: for every call (streaming or not) whose first transport attempt
fails with message `e`: the temperature-rejection test is exactly the
case-insensitive presence of "temperature" together with a rejection
keyword; when it holds, exactly the two parameter sets are sent, the
second one without the temperature parameter, and the call's outcome is
that of the retry (so a failing retry terminates the call as failed);
when it does not hold, only the first parameter set is sent and the call
terminates as failed with `e`. -/
theorem C2_temperature_negotiation {α : Type}
    (call : ParamSet → Except String α)
    (model user_message system_prompt : String) (temperature : ℚ)
    (max_tokens : Int) (stream : Bool) (e : String)
    (hfail : call (build_api_params model user_message system_prompt
      max_tokens (some temperature) stream) = Except.error e) :
    (is_temperature_error e =
      (containsPat (lowerStr e) "temperature" &&
        ["unsupported", "not supported", "unknown", "invalid",
          "unrecognized"].any (fun kw => containsPat (lowerStr e) kw))) ∧
    (is_temperature_error e = true →
      (negotiate call model user_message system_prompt temperature max_tokens
          stream).2 =
        [build_api_params model user_message system_prompt max_tokens
          (some temperature) stream,
         build_api_params model user_message system_prompt max_tokens none
          stream] ∧
      ParamSet.find (build_api_params model user_message system_prompt
        max_tokens none stream) "temperature" = none ∧
      (negotiate call model user_message system_prompt temperature max_tokens
          stream).1 =
        call (build_api_params model user_message system_prompt max_tokens
          none stream)) ∧
    (is_temperature_error e = false →
      (negotiate call model user_message system_prompt temperature max_tokens
          stream).2 =
        [build_api_params model user_message system_prompt max_tokens
          (some temperature) stream] ∧
      (negotiate call model user_message system_prompt temperature max_tokens
          stream).1 = Except.error e) := by
  refine ⟨?_, ?_, ?_⟩
  · by_cases h : containsPat (lowerStr e) "temperature" <;>
      simp [is_temperature_error, h]
  · intro ht
    refine ⟨?_, find_temperature_of_retry model user_message system_prompt
      max_tokens stream, ?_⟩ <;>
      simp [negotiate, hfail, ht]
  · intro ht
    constructor <;> simp [negotiate, hfail, ht]

/-- Transport model for the C2 witness: rejects every parameter set that
carries a temperature entry. -/
def tempRejectCall : ParamSet → Except String Nat :=
  fun p =>
    match ParamSet.find p "temperature" with
    | some _ => Except.error "Unsupported parameter: temperature"
    | none => Except.ok 42

/-- C2 witness: against a transport rejecting temperature, the call
sends exactly the two parameter sets and succeeds on the retry. -/
theorem C2_temperature_negotiation_witness :
    is_temperature_error "Unsupported parameter: temperature" = true ∧
    (negotiate tempRejectCall "gpt-5" "hi" "" 1 100 false).2 =
      [build_api_params "gpt-5" "hi" "" 100 (some 1) false,
       build_api_params "gpt-5" "hi" "" 100 none false] ∧
    (negotiate tempRejectCall "gpt-5" "hi" "" 1 100 false).1 =
      Except.ok 42 := by
  have h := C2_temperature_negotiation tempRejectCall "gpt-5" "hi" "" 1 100
    false "Unsupported parameter: temperature" rfl
  have ht : is_temperature_error "Unsupported parameter: temperature" = true := by
    decide
  refine ⟨ht, (h.2.1 ht).1, ?_⟩
  rw [(h.2.1 ht).2.2]
  rfl

/-- A transport handing back a fixed event stream makes the negotiation
succeed on the first attempt. -/
theorem negotiate_const_ok {α : Type} (r : α)
    (model user_message system_prompt : String) (temperature : ℚ)
    (max_tokens : Int) (stream : Bool) :
    (negotiate (fun _ => Except.ok r) model user_message system_prompt
      temperature max_tokens stream).1 = Except.ok r := by
  simp [negotiate]

/-- C3: for every finite event sequence consumed to natural end without
cancellation or error event, the streaming call returns `success = true`
and content equal to the concatenation of all extracted delta-text
increments in arrival order, and the chunk-callback trace holds exactly
one entry per non-empty delta, each entry being exactly that increment
(never the cumulative buffer). -/
theorem C3_stream_accumulation
    (model user_message system_prompt : String) (temperature : ℚ)
    (max_tokens : Int) (events : List StreamEvent)
    (h : noErrorEvents events = true) :
    stream_response (fun _ => Except.ok events) model user_message
      system_prompt temperature max_tokens none =
      ({ success := true, content := concatAll (deltasOf events),
         error := "", cancelled := false },
       nonEmptyOf (deltasOf events)) := by
  unfold stream_response
  rw [negotiate_const_ok events model user_message system_prompt temperature
    max_tokens true]
  simp [streamLoop_none_eq events "" [] h, String.empty_append]

/-- Event sequence used by the C3 and C4 witnesses: two non-empty
deltas (one a raw string, one a dict payload), an ignored event, and an
empty delta. -/
def witnessEvents : List StreamEvent :=
  [StreamEvent.deltaEvent (DeltaVal.str "Hel"),
   StreamEvent.otherEvent,
   StreamEvent.deltaEvent (DeltaVal.dict [("text", PyVal.str "lo")]),
   StreamEvent.deltaEvent (DeltaVal.str "")]

/-- C3 witness: the concrete event sequence accumulates to "Hello" with
callback trace ["Hel", "lo"]. -/
theorem C3_stream_accumulation_witness :
    noErrorEvents witnessEvents = true ∧
    stream_response (fun _ => Except.ok witnessEvents) "gpt-5" "hi" "" 1 100
      none =
      ({ success := true, content := "Hello", error := "",
         cancelled := false }, ["Hel", "lo"]) := by
  refine ⟨by decide, ?_⟩
  rw [C3_stream_accumulation "gpt-5" "hi" "" 1 100 witnessEvents (by decide)]
  rfl

/-- C4: if the cancellation signal is first observed set at the check
preceding the event with 0-based index `k` (so it is set before that
event is processed), that event exists, and no error event precedes it,
the streaming call returns immediately with `success = true`,
`cancelled = true`, and content equal to exactly the concatenation of
the deltas extracted from the first `k` events (events `1..k` in the
claim's 1-based numbering, i.e. `1..k-1` for its event `k`). -/
theorem C4_cancellation
    (model user_message system_prompt : String) (temperature : ℚ)
    (max_tokens : Int) (events : List StreamEvent) (k : Nat)
    (hk : k < events.length) (hne : noErrorEvents (events.take k) = true) :
    stream_response (fun _ => Except.ok events) model user_message
      system_prompt temperature max_tokens (some k) =
      ({ success := true, content := concatAll (deltasOf (events.take k)),
         error := "", cancelled := true },
       nonEmptyOf (deltasOf (events.take k))) := by
  unfold stream_response
  rw [negotiate_const_ok events model user_message system_prompt temperature
    max_tokens true]
  simp [streamLoop_cancel_eq k events "" [] hk hne, String.empty_append]

/-- C4 witness: cancelling before the event at index 2 of the concrete
sequence keeps exactly the first delta "Hel". -/
theorem C4_cancellation_witness :
    2 < witnessEvents.length ∧
    noErrorEvents (witnessEvents.take 2) = true ∧
    stream_response (fun _ => Except.ok witnessEvents) "gpt-5" "hi" "" 1 100
      (some 2) =
      ({ success := true, content := "Hel", error := "",
         cancelled := true }, ["Hel"]) := by
  refine ⟨by decide, by decide, ?_⟩
  rw [C4_cancellation "gpt-5" "hi" "" 1 100 witnessEvents 2 (by decide)
    (by decide)]
  rfl

/-- C6: an error event with a truthy message occurring mid-stream aborts
the stream: the call returns `success = false` with the raised message
classified like any transport error, and the partial content accumulated
before the error is discarded (content is empty) while the chunks
already delivered to the callback remain delivered; moreover the raised
message is the event's message prefixed by its code when a truthy code
is present and the bare message when the code is absent. -/
theorem C6_stream_error_aborts
    (model user_message system_prompt : String) (temperature : ℚ)
    (max_tokens : Int) (pre post : List StreamEvent)
    (code : Option String) (m repr : String)
    (hpre : noErrorEvents pre = true) (hm : m.isEmpty = false) :
    stream_response
      (fun _ => Except.ok
        (pre ++ StreamEvent.errorEvent code (some m) repr :: post))
      model user_message system_prompt temperature max_tokens none =
      ({ success := false, content := "",
         error := localize_error (raiseMsg code (some m) repr),
         cancelled := false },
       nonEmptyOf (deltasOf pre)) ∧
    (∀ c : String, c.isEmpty = false →
      raiseMsg (some c) (some m) repr = c ++ ": " ++ m) ∧
    raiseMsg none (some m) repr = m := by
  refine ⟨?_, ?_, ?_⟩
  · unfold stream_response
    rw [negotiate_const_ok
      (pre ++ StreamEvent.errorEvent code (some m) repr :: post)
      model user_message system_prompt temperature max_tokens true]
    simp [streamLoop_error_eq pre code (some m) repr post "" [] hpre]
  · intro c hc
    simp [raiseMsg, hm, hc]
  · simp [raiseMsg, hm]

/-- C6 witness: a stream with one delta then an error event with code
"err_code" and message "boom" fails with "err_code: boom" and empty
content, the already-delivered chunk remaining in the callback trace. -/
theorem C6_stream_error_aborts_witness :
    stream_response
      (fun _ => Except.ok
        ([StreamEvent.deltaEvent (DeltaVal.str "par")] ++
          StreamEvent.errorEvent (some "err_code") (some "boom") "evt" :: []))
      "gpt-5" "hi" "" 1 100 none =
      ({ success := false, content := "", error := "err_code: boom",
         cancelled := false }, ["par"]) := by
  rw [(C6_stream_error_aborts "gpt-5" "hi" "" 1 100
    [StreamEvent.deltaEvent (DeltaVal.str "par")] []
    (some "err_code") "boom" "evt" (by decide) (by decide)).1]
  rfl

/-- The CallResult invariant: a failed result has empty content, and a
cancelled result is a successful one. -/
def resultInvariant (r : ChatResponse) : Bool :=
  (r.success || r.content == "") && (!r.cancelled || r.success)

/-- Every result of the non-streaming path satisfies the invariant. -/
theorem non_stream_response_invariant
    (call : ParamSet → Except String Reply)
    (model user_message system_prompt : String) (temperature : ℚ)
    (max_tokens : Int) :
    resultInvariant (non_stream_response call model user_message
      system_prompt temperature max_tokens) = true := by
  unfold non_stream_response
  cases (negotiate call model user_message system_prompt temperature
      max_tokens false).1 with
  | error e => simp [resultInvariant]
  | ok r => simp [resultInvariant]

/-- Every result of the streaming path satisfies the invariant. -/
theorem stream_response_invariant
    (call : ParamSet → Except String (List StreamEvent))
    (model user_message system_prompt : String) (temperature : ℚ)
    (max_tokens : Int) (cancel : Option Nat) :
    resultInvariant (stream_response call model user_message system_prompt
      temperature max_tokens cancel).1 = true := by
  unfold stream_response
  cases (negotiate call model user_message system_prompt temperature
      max_tokens true).1 with
  | error e => simp [resultInvariant]
  | ok events =>
      rcases hl : streamLoop cancel "" [] events with ⟨res, calls⟩
      cases res with
      | error e2 => simp [hl, resultInvariant]
      | ok v =>
          obtain ⟨content, cancelled⟩ := v
          simp [hl, resultInvariant]

/-- C7: every CallResult produced by any operation of the client
satisfies the invariant: `success = false` implies `content = ""`, and
`cancelled = true` implies `success = true` — stated as the boolean
`resultInvariant`, for all transports, inputs, call modes and
cancellation behaviours. -/
theorem C7_call_result_invariant
    (callStream : ParamSet → Except String (List StreamEvent))
    (callNonStream : ParamSet → Except String Reply)
    (api_key user_message system_prompt model : String) (temperature : ℚ)
    (max_tokens : Int) (stream : Bool) (cancel : Option Nat) :
    resultInvariant (send_message callStream callNonStream api_key
      user_message system_prompt model temperature max_tokens stream
      cancel) = true := by
  unfold send_message
  by_cases h1 : user_message.trim.isEmpty
  · simp [h1, resultInvariant]
  · by_cases h2 : api_key.isEmpty
    · simp [h1, h2, resultInvariant]
    · cases stream with
      | true =>
          simp only [h1, h2, if_true, if_false, Bool.false_eq_true,
            if_neg, ite_true, ite_false]
          simpa [h1, h2] using stream_response_invariant callStream model
            user_message system_prompt temperature max_tokens cancel
      | false =>
          simpa [h1, h2] using non_stream_response_invariant callNonStream
            model user_message system_prompt temperature max_tokens

/-- C8: the Response Extractor follows the ordered fallback chain with
first match winning: a reply whose only text lives in a nested
content-list item (no top-level text, no item-level text) yields exactly
that text, and a reply with no matching field anywhere (a non-string
top-level field, a non-string item text, a non-list non-string content)
yields the empty string rather than an error. -/
theorem C8_extractor_fallback_chain (t : String) (ht : t.isEmpty = false) :
    extract_output_text
      { output_text := Option.none,
        output := OutputVal.list
          [{ text := Option.none,
             content := ContentVal.list
               [ContentItem.obj (some (PyVal.str t))] }] } = t ∧
    extract_output_text
      { output_text := some PyVal.other,
        output := OutputVal.list
          [{ text := some PyVal.other,
             content := ContentVal.other }] } = "" := by
  constructor
  · simp [extract_output_text, extract_output_text.extractFromOutput,
      scanOutput, scanOutput.scanOutputContent, scanContentList,
      contentTruthy, ht]
  · simp [extract_output_text, extract_output_text.extractFromOutput,
      scanOutput, scanOutput.scanOutputContent, scanContentList,
      contentTruthy]

/-- C8 witness: the fallback chain applied to the nested text "hello"
and to a reply with no matching field anywhere. -/
theorem C8_extractor_fallback_chain_witness :
    extract_output_text
      { output_text := Option.none,
        output := OutputVal.list
          [{ text := Option.none,
             content := ContentVal.list
               [ContentItem.obj (some (PyVal.str "hello"))] }] } = "hello" ∧
    extract_output_text
      { output_text := some PyVal.other,
        output := OutputVal.list
          [{ text := some PyVal.other,
             content := ContentVal.other }] } = "" :=
  C8_extractor_fallback_chain "hello" (by decide)
